import Mathlib

/-!
Shallow embedding of the airdrop HTTP handler in src/web3/api/airdrop.js.

The handler is a single linear workflow over external SDK calls
(Solana web3.js / spl-token).  We model the external calls as oracle
fields of a `Chain` record (each query either returns a value or throws
an error message), the environment variables as `Option String` fields
of a `Config` record, and the HTTP request as a `Request` record.
Running the handler on a `World` (request + config + chain oracle)
produces the HTTP response together with the console log lines, the
trace of external events performed, and the list of instructions that
were assembled into the transaction.
-/

namespace Airdrop

/-- JavaScript falsiness of an optional environment / body string:
`undefined` or the empty string are falsy. -/
def jsFalsy (s : Option String) : Bool :=
  match s with
  | none => true
  | some t => t = ""

/-- JavaScript `parseInt` on a string (decimal): skip leading whitespace,
optional sign, then a maximal run of digits; no digits gives `NaN`,
modelled as `none`. -/
def parseIntJs (s : String) : Option Int :=
  let cs := s.toList.dropWhile (fun c => c.isWhitespace)
  let signed : Int × List Char :=
    match cs with
    | '-' :: rest => (-1, rest)
    | '+' :: rest => (1, rest)
    | _ => (1, cs)
  let digits := signed.2.takeWhile (fun c => c.isDigit)
  if digits.isEmpty then none
  else some (signed.1 * (digits.foldl (fun acc c => acc * 10 + (c.toNat - 48)) 0 : Nat))

/-- The JS or-default read of the TOKEN_AMOUNT variable: the default
string 25000 replaces a missing or empty value. -/
def envOrDefault (o : Option String) : String :=
  match o with
  | none => "25000"
  | some s => if s = "" then "25000" else s

/-- The configured transfer amount: `parseInt` applied to the
TOKEN_AMOUNT variable or its default, as a JS number (`none` is
`NaN`). -/
def tokenAmountOf (o : Option String) : Option Int :=
  parseIntJs (envOrDefault o)

/-- JS `<` between the queried ui amount and the configured token amount:
any comparison involving `NaN` is false. -/
def jltQ (ui : Option ℚ) (amt : Option Int) : Bool :=
  match ui, amt with
  | some a, some b => decide (a < (b : ℚ))
  | _, _ => false

/-- Line 107 of the source: the token amount times `Math.pow(10, 9)`;
`NaN` propagates. -/
def scaleAmount (a : Option Int) : Option Int :=
  a.map (fun i => i * 10 ^ 9)

/-- String interpolation of a JS number into the success message. -/
def jsNumToString (a : Option Int) : String :=
  match a with
  | none => "NaN"
  | some i => toString i

/-- First list is an initial segment of the second. -/
def leadEq : List Char → List Char → Bool
  | [], _ => true
  | _ :: _, [] => false
  | a :: as, b :: bs => a == b && leadEq as bs

/-- The pattern occurs as a contiguous run somewhere in the list. -/
def charsContain (pat : List Char) : List Char → Bool
  | [] => pat.isEmpty
  | c :: t => leadEq pat (c :: t) || charsContain pat t

/-- JS `String.prototype.includes`. -/
def strContains (s pat : String) : Bool :=
  charsContain pat.data s.data

/-- JS `String.prototype.startsWith`. -/
def strStarts (s pre : String) : Bool :=
  leadEq pre.data s.data

/-- The environment variables read by the handler. -/
structure Config where
  senderPrivateKey : Option String
  tokenMintAddress : Option String
  rpcUrl : Option String
  tokenAmountStr : Option String
deriving DecidableEq, Repr

/-- The HTTP request: its method and the `walletAddress` field of the
JSON body (`none` when the field is absent). -/
structure Request where
  method : String
  walletAddress : Option String
deriving DecidableEq, Repr

/-- An instruction added to the transaction: either the associated token
account creation (payer, ata, owner, mint) or the SPL token transfer
(source, destination, owner, amount in base units as a JS number). -/
inductive Instruction where
  | createATA (payer ata owner mint : String)
  | transfer (source dest owner : String) (amount : Option Int)
deriving DecidableEq, Repr

/-- Oracle for the external SDK and RPC calls made during one request.
Each fallible call either yields a value or throws the recorded error
message.  The sender token-account balance is exposed the way Solana
reports it: a raw base-unit amount together with the token decimals,
from which the decimal-adjusted `uiAmount` is derived. -/
structure Chain where
  validAddress : String → Bool
  invalidAddrMsg : String → String
  jsonParseBytes : String → Except String (List Nat)
  bs58Decode : String → Except String (List Nat)
  fromSecretKey : List Nat → Except String String
  getATA : String → String → Except String String
  balanceThrow : Option String
  senderRawBalance : Nat
  tokenDecimals : Nat
  accountInfo : Except String (Option Unit)
  latestBlockhash : Except String String
  sendTx : List Instruction → Except String String

/-- Everything one invocation of the handler depends on. -/
structure World where
  cfg : Config
  req : Request
  chain : Chain

/-- External events performed during a run, in order. -/
inductive Event where
  | readConfig
  | queryBalance
  | queryAccountInfo
  | getBlockhash
  | submit
deriving DecidableEq, Repr

/-- One console log line.  The source logs with a fixed first argument
and, for the error logs, the caught error as second argument; we keep
that structure. -/
inductive LogEntry where
  | missingEnv
  | keyParseErr (e : String)
  | acctInfoErr (e : String)
  | airdropSuccess (sig : String)
  | airdropErr (e : String)
deriving DecidableEq, Repr

/-- The JSON body of a response: an error object or the success object. -/
inductive Body where
  | err (msg : String)
  | ok (signature : String) (amount : Option Int) (message : String)
deriving DecidableEq, Repr

/-- An HTTP response: status code and JSON body. -/
structure Resp where
  status : Nat
  body : Body
deriving DecidableEq, Repr

/-- Result of one run: the response, console log lines, the external
events performed, and the instructions assembled into the transaction
(empty when assembly was never reached). -/
structure RunResult where
  resp : Resp
  logs : List LogEntry
  events : List Event
  tx : List Instruction
deriving DecidableEq, Repr

/-- Outcome of the body of the `try` block: either an early return or
success response (`Except.ok`), or a thrown error message
(`Except.error`), together with the logs, events and assembled
instructions accumulated so far. -/
structure TryOut where
  result : Except String Resp
  logs : List LogEntry
  events : List Event
  tx : List Instruction

/-- The decimal-adjusted balance the handler compares against, as the
chain reports it for the sender token account (`uiAmount` equals the
raw base-unit amount divided by ten to the token decimals). -/
def uiAmount (ch : Chain) : ℚ :=
  mkRat (ch.senderRawBalance : Int) ((10 : Nat) ^ ch.tokenDecimals)

/-- The decoding branch of the private key (lines 42 to 49): a string
beginning with a bracket is parsed as a JSON array of bytes, anything
else is base58-decoded. -/
def decodedKey (ch : Chain) (spk : String) : Except String (List Nat) :=
  if strStarts spk "[" then ch.jsonParseBytes spk else ch.bs58Decode spk

/-- Decoding followed by `Keypair.fromSecretKey` (line 51), which yields
the sender public key or throws (for instance on a wrong key length). -/
def parsedKeypair (ch : Chain) (spk : String) : Except String String :=
  match decodedKey ch spk with
  | .error e => .error e
  | .ok bytes => ch.fromSecretKey bytes

/-- Lines 89 to 131: assembly of the transaction from the recipient
account-info query result, then blockhash fetch and submission.
`info = none` means the account-info query returned null or threw
(the JS variable stays falsy either way). -/
def assembleAndSend (ch : Chain) (senderPub sAta rAta addr mint : String)
    (amt : Option Int) (info : Option Unit) (logs1 : List LogEntry) : TryOut :=
  let tx :=
    (match info with
      | none => [Instruction.createATA senderPub rAta addr mint]
      | some _ => []) ++
    [Instruction.transfer sAta rAta senderPub (scaleAmount amt)]
  let evs : List Event := [.readConfig, .queryBalance, .queryAccountInfo]
  match ch.latestBlockhash with
  | .error e => ⟨.error e, logs1, evs ++ [.getBlockhash], tx⟩
  | .ok _bh =>
    match ch.sendTx tx with
    | .error e => ⟨.error e, logs1, evs ++ [.getBlockhash, .submit], tx⟩
    | .ok sig =>
      ⟨.ok ⟨200, .ok sig amt ("Successfully airdropped " ++ jsNumToString amt ++ " DUCK tokens")⟩,
        logs1 ++ [.airdropSuccess sig],
        evs ++ [.getBlockhash, .submit], tx⟩

/-- The body of the `try` block (lines 11 to 132).  The sender private
key enters only through its falsiness (the configuration check) and
through the result of decoding it (`keyRes`); both are supplied as
arguments by `handlerTry`. -/
def handlerCore (req : Request) (mintA rpcA amtStr : Option String) (ch : Chain)
    (spkMissing : Bool) (keyRes : Except String String) : TryOut :=
  if jsFalsy req.walletAddress then
    ⟨.ok ⟨400, .err "Wallet address is required"⟩, [], [], []⟩
  else
    let addr := req.walletAddress.getD ""
    if ch.validAddress addr then
      let amt := tokenAmountOf amtStr
      if spkMissing || jsFalsy mintA || jsFalsy rpcA then
        ⟨.ok ⟨500, .err "Server configuration error"⟩,
          [.missingEnv], [.readConfig], []⟩
      else
        match keyRes with
        | .error e =>
          ⟨.ok ⟨500, .err "Invalid sender private key format"⟩,
            [.keyParseErr e], [.readConfig], []⟩
        | .ok senderPub =>
          let mint := mintA.getD ""
          if ch.validAddress mint then
            match ch.getATA mint senderPub with
            | .error e => ⟨.error e, [], [.readConfig], []⟩
            | .ok sAta =>
              match ch.getATA mint addr with
              | .error e => ⟨.error e, [], [.readConfig], []⟩
              | .ok rAta =>
                match ch.balanceThrow with
                | some e => ⟨.error e, [], [.readConfig, .queryBalance], []⟩
                | none =>
                  if jltQ (some (uiAmount ch)) amt then
                    ⟨.ok ⟨400, .err "insufficient_token_balance"⟩, [],
                      [.readConfig, .queryBalance], []⟩
                  else
                    match ch.accountInfo with
                    | .error e =>
                      assembleAndSend ch senderPub sAta rAta addr mint amt none
                        [.acctInfoErr e]
                    | .ok v =>
                      assembleAndSend ch senderPub sAta rAta addr mint amt v []
          else
            ⟨.error (ch.invalidAddrMsg mint), [], [.readConfig], []⟩
    else
      ⟨.ok ⟨400, .err "Invalid wallet address format"⟩, [], [], []⟩

/-- The `try` block applied to a world. -/
def handlerTry (w : World) : TryOut :=
  handlerCore w.req w.cfg.tokenMintAddress w.cfg.rpcUrl w.cfg.tokenAmountStr w.chain
    (jsFalsy w.cfg.senderPrivateKey)
    (parsedKeypair w.chain (w.cfg.senderPrivateKey.getD ""))

/-- The catch block (lines 134 to 145): reclassify an error whose
message contains "already in use" to a 400, everything else to a 500
carrying the raw message or the generic fallback when it is empty. -/
def catchResp (e : String) : Resp :=
  if strContains e "already in use" then
    ⟨400, .err "already_claimed_or_has_balance"⟩
  else
    ⟨500, .err (if e = "" then "Internal server error during airdrop" else e)⟩

/-- The whole handler: method gate, then the `try` body with the top
level catch around it. -/
def run (w : World) : RunResult :=
  if w.req.method ≠ "POST" then
    ⟨⟨405, .err "Method not allowed"⟩, [], [], []⟩
  else
    match handlerTry w with
    | ⟨.ok r, logs, evs, tx⟩ => ⟨r, logs, evs, tx⟩
    | ⟨.error e, logs, evs, tx⟩ =>
      ⟨catchResp e, logs ++ [.airdropErr e], evs, tx⟩

/-- A chain oracle on which every call succeeds: the sender holds
25000000000 base units of a 6-decimal token, and the recipient already
has a token account. -/
def okChain : Chain where
  validAddress := fun _ => true
  invalidAddrMsg := fun _ => "Invalid public key input"
  jsonParseBytes := fun _ => .ok [1]
  bs58Decode := fun _ => .ok [2]
  fromSecretKey := fun _ => .ok "SenderPub"
  getATA := fun m o => .ok (m ++ ":" ++ o)
  balanceThrow := none
  senderRawBalance := 25000000000
  tokenDecimals := 6
  accountInfo := .ok (some ())
  latestBlockhash := .ok "Blockhash1"
  sendTx := fun _ => .ok "Sig1"

/-- A configuration with all three required values present and the
amount variable unset. -/
def okCfg : Config := ⟨some "[1,2]", some "Mint1", some "Rpc1", none⟩

/-- A well-formed POST request. -/
def okReq : Request := ⟨"POST", some "Recip1"⟩

/-- A world on which the whole happy path runs. -/
def okWorld : World := ⟨okCfg, okReq, okChain⟩

/-- Evaluation rule for falsiness of a present value. -/
@[simp] theorem jsFalsy_some (t : String) : jsFalsy (some t) = decide (t = "") := rfl

/-- Evaluation rule for falsiness of an absent value. -/
@[simp] theorem jsFalsy_none : jsFalsy none = true := rfl

/-- A chain oracle that rejects every address string. -/
def badAddrChain : Chain := { okChain with validAddress := fun _ => false }

/-- A world with an invalid recipient address and valid configuration. -/
def w6 : World := ⟨okCfg, ⟨"POST", some "bad"⟩, badAddrChain⟩

/-- A world with an invalid recipient address and all three required
configuration values absent. -/
def cexW2 : World := ⟨⟨none, none, none, none⟩, ⟨"POST", some "xyz"⟩, badAddrChain⟩

/-- A world with a valid request but the sender key unset. -/
def w2cfg : World := ⟨⟨none, some "Mint1", some "Rpc1", none⟩, okReq, okChain⟩

/-- A world with a missing request body field and absent configuration. -/
def w2body : World := ⟨⟨none, none, none, none⟩, ⟨"POST", none⟩, okChain⟩

/-!
Structural lemmas relating `run` to the try block and characterising the
branches of the handler core.
-/

theorem run_not_post (w : World) (h : ¬ w.req.method = "POST") :
    run w = ⟨⟨405, .err "Method not allowed"⟩, [], [], []⟩ := by
  unfold run
  simp [h]

theorem run_post_ok (w : World) (r : Resp) (logs : List LogEntry) (evs : List Event)
    (tx : List Instruction) (hm : w.req.method = "POST")
    (h : handlerTry w = ⟨.ok r, logs, evs, tx⟩) :
    run w = ⟨r, logs, evs, tx⟩ := by
  unfold run
  rw [h]
  simp [hm]

theorem run_post_err (w : World) (e : String) (logs : List LogEntry) (evs : List Event)
    (tx : List Instruction) (hm : w.req.method = "POST")
    (h : handlerTry w = ⟨.error e, logs, evs, tx⟩) :
    run w = ⟨catchResp e, logs ++ [.airdropErr e], evs, tx⟩ := by
  unfold run
  rw [h]
  simp [hm]

theorem core_tx_transfer (req : Request) (mintA rpcA amtStr : Option String) (ch : Chain)
    (sm : Bool) (kr : Except String String) (s d o : String) (a : Option Int)
    (h : Instruction.transfer s d o a ∈ (handlerCore req mintA rpcA amtStr ch sm kr).tx) :
    a = scaleAmount (tokenAmountOf amtStr) := by
  simp only [handlerCore, assembleAndSend] at h
  repeat' split at h
  all_goals simp_all

theorem core_submit_guard (req : Request) (mintA rpcA amtStr : Option String) (ch : Chain)
    (sm : Bool) (kr : Except String String)
    (h : Event.submit ∈ (handlerCore req mintA rpcA amtStr ch sm kr).events) :
    jltQ (some (uiAmount ch)) (tokenAmountOf amtStr) = false := by
  simp only [handlerCore, assembleAndSend] at h
  repeat' split at h
  all_goals simp_all

theorem core_ok_amount (req : Request) (mintA rpcA amtStr : Option String) (ch : Chain)
    (sm : Bool) (kr : Except String String) (r : Resp)
    (h : (handlerCore req mintA rpcA amtStr ch sm kr).result = .ok r)
    (sig : String) (amt : Option Int) (m : String) (hb : r.body = .ok sig amt m) :
    amt = tokenAmountOf amtStr := by
  simp only [handlerCore, assembleAndSend] at h
  repeat' split at h
  all_goals (try simp at h)
  all_goals (try subst h)
  all_goals simp_all

theorem core_insufficient (req : Request) (mintA rpcA amtStr : Option String) (ch : Chain)
    (sm : Bool) (kr : Except String String)
    (h : (handlerCore req mintA rpcA amtStr ch sm kr).result =
      .ok ⟨400, .err "insufficient_token_balance"⟩) :
    jltQ (some (uiAmount ch)) (tokenAmountOf amtStr) = true := by
  simp only [handlerCore, assembleAndSend] at h
  repeat' split at h
  all_goals simp_all

theorem core_missing_env (req : Request) (mintA rpcA amtStr : Option String) (ch : Chain)
    (sm : Bool) (kr : Except String String)
    (h : LogEntry.missingEnv ∈ (handlerCore req mintA rpcA amtStr ch sm kr).logs) :
    (sm || jsFalsy mintA || jsFalsy rpcA) = true := by
  simp only [handlerCore, assembleAndSend] at h
  repeat' split at h
  all_goals simp_all

theorem catchResp_ne_insufficient (e : String) :
    catchResp e ≠ ⟨400, .err "insufficient_token_balance"⟩ := by
  unfold catchResp
  split <;> simp

theorem catchResp_body_err (e : String) : ∃ m, (catchResp e).body = .err m := by
  unfold catchResp
  split
  · exact ⟨_, rfl⟩
  · exact ⟨_, rfl⟩

theorem submit_run_to_try (w : World) (h : Event.submit ∈ (run w).events) :
    Event.submit ∈ (handlerTry w).events := by
  by_cases hm : w.req.method = "POST"
  · rcases htw : handlerTry w with ⟨res, l, ev, tx⟩
    cases res with
    | ok r =>
      rw [run_post_ok w r l ev tx hm htw] at h
      simpa using h
    | error e =>
      rw [run_post_err w e l ev tx hm htw] at h
      simpa using h
  · rw [run_not_post w hm] at h
    simp at h

/-!
Claim theorems.
-/

/-- C6: a POST request whose wallet address string fails address parsing
is answered 400 with the format error, and the run performs no
downstream work at all: no configuration read, no balance query, no
account query, no submission (empty event trace) and no instructions
assembled. -/
theorem c6_invalid_address_rejected (w : World) (addr : String)
    (hm : w.req.method = "POST") (ha : w.req.walletAddress = some addr) (hne : addr ≠ "")
    (hv : w.chain.validAddress addr = false) :
    run w = ⟨⟨400, .err "Invalid wallet address format"⟩, [], [], []⟩ := by
  have htry : handlerTry w =
      ⟨.ok ⟨400, .err "Invalid wallet address format"⟩, [], [], []⟩ := by
    simp [handlerTry, handlerCore, ha, hne, hv]
  exact run_post_ok w _ _ _ _ hm htry

/-- C6 witness: a concrete invalid-address request. -/
theorem c6_witness :
    run w6 = ⟨⟨400, .err "Invalid wallet address format"⟩, [], [], []⟩ :=
  c6_invalid_address_rejected w6 "bad" rfl rfl (by decide) rfl

/-- C2 counterexample: a POST request with an invalid wallet address
while all three required configuration values are absent is answered
400 Invalid wallet address format, not 500 Server configuration error,
so the configuration error is not returned regardless of request body
validity. -/
theorem c2_counterexample :
    cexW2.req.method = "POST" ∧
    cexW2.cfg.senderPrivateKey = none ∧ cexW2.cfg.tokenMintAddress = none ∧
    cexW2.cfg.rpcUrl = none ∧
    cexW2.req.walletAddress = some "xyz" ∧ cexW2.chain.validAddress "xyz" = false ∧
    (run cexW2).resp = ⟨400, .err "Invalid wallet address format"⟩ ∧
    ¬ (run cexW2).resp = ⟨500, .err "Server configuration error"⟩ := by
  decide

/-- C2 amended: for a POST request that passes body and address
validation, absence of any of the three required configuration values
yields 500 Server configuration error; a request with a missing or
empty wallet address instead receives its own 400 error first, even
when the configuration is absent. -/
theorem c2_config_error_after_validation :
    (∀ (w : World) (addr : String),
      w.req.method = "POST" → w.req.walletAddress = some addr → addr ≠ "" →
      w.chain.validAddress addr = true →
      (jsFalsy w.cfg.senderPrivateKey || jsFalsy w.cfg.tokenMintAddress ||
        jsFalsy w.cfg.rpcUrl) = true →
      run w = ⟨⟨500, .err "Server configuration error"⟩, [.missingEnv], [.readConfig], []⟩) ∧
    (∀ w : World,
      w.req.method = "POST" → jsFalsy w.req.walletAddress = true →
      run w = ⟨⟨400, .err "Wallet address is required"⟩, [], [], []⟩) := by
  constructor
  · intro w addr hm ha hne hv hmiss
    have htry : handlerTry w =
        ⟨.ok ⟨500, .err "Server configuration error"⟩, [.missingEnv], [.readConfig], []⟩ := by
      simp [handlerTry, handlerCore, ha, hne, hv, hmiss]
    exact run_post_ok w _ _ _ _ hm htry
  · intro w hm hbad
    have htry : handlerTry w =
        ⟨.ok ⟨400, .err "Wallet address is required"⟩, [], [], []⟩ := by
      simp [handlerTry, handlerCore, hbad]
    exact run_post_ok w _ _ _ _ hm htry

/-- C2 witness: the amended behaviour at two concrete worlds, one with
a valid body and the sender key unset, one with the body field missing
and the whole configuration unset. -/
theorem c2_witness :
    run w2cfg = ⟨⟨500, .err "Server configuration error"⟩, [.missingEnv], [.readConfig], []⟩ ∧
    run w2body = ⟨⟨400, .err "Wallet address is required"⟩, [], [], []⟩ :=
  ⟨c2_config_error_after_validation.1 w2cfg "Recip1" rfl rfl (by decide) rfl (by decide),
    c2_config_error_after_validation.2 w2body rfl rfl⟩

/-- C1: every transfer instruction placed in the assembled transaction
carries the configured token amount multiplied by the fixed exponent
10^9, independent of the token decimals reported by the chain. -/
theorem c1_transfer_amount_fixed_exponent (w : World) (s d o : String) (a : Option Int)
    (h : Instruction.transfer s d o a ∈ (run w).tx) :
    a = (tokenAmountOf w.cfg.tokenAmountStr).map (fun i => i * 10 ^ 9) := by
  by_cases hm : w.req.method = "POST"
  · rcases htw : handlerTry w with ⟨res, l, ev, tx⟩
    have hmem : Instruction.transfer s d o a ∈ tx := by
      cases res with
      | ok r =>
        rw [run_post_ok w r l ev tx hm htw] at h
        simpa using h
      | error e =>
        rw [run_post_err w e l ev tx hm htw] at h
        simpa using h
    have h2 : Instruction.transfer s d o a ∈ (handlerTry w).tx := by
      rw [htw]
      simpa using hmem
    simp only [handlerTry] at h2
    simpa [scaleAmount] using core_tx_transfer _ _ _ _ _ _ _ _ _ _ _ h2
  · rw [run_not_post w hm] at h
    simp at h

/-- C1 witness: on the happy-path world the transfer amount is
25000 * 10^9 base units. -/
theorem c1_witness :
    (some 25000000000000 : Option Int) =
      (tokenAmountOf okWorld.cfg.tokenAmountStr).map (fun i => i * 10 ^ 9) :=
  c1_transfer_amount_fixed_exponent okWorld "Mint1:SenderPub" "Mint1:Recip1" "SenderPub"
    (some 25000000000000) (by decide)

/-- A chain oracle whose sender balance is far below the configured
amount (100 base units of a 6-decimal token). -/
def lowBalChain : Chain := { okChain with senderRawBalance := 100 }

/-- A world on which the insufficient-balance guard fires. -/
def w3 : World := ⟨okCfg, okReq, lowBalChain⟩

/-- C3: for a request with a valid address that reaches the balance
check, if the queried decimal-adjusted sender balance is below the
configured amount the response is 400 insufficient_token_balance with
no submission and no instruction assembled; conversely a submission
event only occurs in runs where the balance comparison did not flag a
shortfall. -/
theorem c3_insufficient_balance_guard :
    (∀ (w : World) (addr pk sAta rAta : String),
      w.req.method = "POST" → w.req.walletAddress = some addr → addr ≠ "" →
      w.chain.validAddress addr = true →
      jsFalsy w.cfg.senderPrivateKey = false → jsFalsy w.cfg.tokenMintAddress = false →
      jsFalsy w.cfg.rpcUrl = false →
      parsedKeypair w.chain (w.cfg.senderPrivateKey.getD "") = .ok pk →
      w.chain.validAddress (w.cfg.tokenMintAddress.getD "") = true →
      w.chain.getATA (w.cfg.tokenMintAddress.getD "") pk = .ok sAta →
      w.chain.getATA (w.cfg.tokenMintAddress.getD "") addr = .ok rAta →
      w.chain.balanceThrow = none →
      jltQ (some (uiAmount w.chain)) (tokenAmountOf w.cfg.tokenAmountStr) = true →
      run w = ⟨⟨400, .err "insufficient_token_balance"⟩, [],
        [.readConfig, .queryBalance], []⟩) ∧
    (∀ w : World, Event.submit ∈ (run w).events →
      jltQ (some (uiAmount w.chain)) (tokenAmountOf w.cfg.tokenAmountStr) = false) := by
  constructor
  · intro w addr pk sAta rAta hm ha hne hv hs hmintF hrpcF hk hmv h1 h2 hb hlt
    have htry : handlerTry w = ⟨.ok ⟨400, .err "insufficient_token_balance"⟩, [],
        [.readConfig, .queryBalance], []⟩ := by
      simp [handlerTry, handlerCore, ha, hne, hv, hs, hmintF, hrpcF, hk, hmv, h1, h2, hb, hlt]
    exact run_post_ok w _ _ _ _ hm htry
  · intro w h
    have h2 := submit_run_to_try w h
    simp only [handlerTry] at h2
    exact core_submit_guard _ _ _ _ _ _ _ h2

/-- C3 witness: a concrete world whose sender balance is below the
configured amount is rejected without submission. -/
theorem c3_witness :
    run w3 = ⟨⟨400, .err "insufficient_token_balance"⟩, [],
      [.readConfig, .queryBalance], []⟩ :=
  c3_insufficient_balance_guard.1 w3 "Recip1" "SenderPub" "Mint1:SenderPub" "Mint1:Recip1"
    rfl rfl (by decide) rfl (by decide) (by decide) (by decide) rfl rfl rfl rfl rfl (by decide)

/-- A chain oracle whose submission throws the duplicate-account error. -/
def dupErrChain : Chain :=
  { okChain with sendTx := fun _ => .error "account Address already in use" }

/-- A world on which submission throws the duplicate-account error. -/
def w4 : World := ⟨okCfg, okReq, dupErrChain⟩

/-- C4: every exception thrown inside the try block is caught at the
top level and mapped to a response: 400 already_claimed_or_has_balance
when the message contains the substring already in use, otherwise 500
carrying the raw message, or the generic fallback when the message is
empty; the error is also appended to the log. -/
theorem c4_top_level_catch (w : World) (e : String) (logs : List LogEntry)
    (evs : List Event) (tx : List Instruction)
    (hm : w.req.method = "POST")
    (h : handlerTry w = ⟨.error e, logs, evs, tx⟩) :
    (run w).resp = catchResp e ∧
    (strContains e "already in use" = true →
      (run w).resp = ⟨400, .err "already_claimed_or_has_balance"⟩) ∧
    (strContains e "already in use" = false →
      (run w).resp =
        ⟨500, .err (if e = "" then "Internal server error during airdrop" else e)⟩) ∧
    (run w).logs = logs ++ [.airdropErr e] := by
  have hr := run_post_err w e logs evs tx hm h
  rw [hr]
  refine ⟨rfl, ?_, ?_, rfl⟩
  · intro hc
    simp [catchResp, hc]
  · intro hc
    simp [catchResp, hc]

/-- C4 witness: a concrete thrown duplicate-account error is
reclassified to 400 already_claimed_or_has_balance. -/
theorem c4_witness :
    (run w4).resp = catchResp "account Address already in use" ∧
    (strContains "account Address already in use" "already in use" = true →
      (run w4).resp = ⟨400, .err "already_claimed_or_has_balance"⟩) ∧
    (strContains "account Address already in use" "already in use" = false →
      (run w4).resp = ⟨500, .err (if "account Address already in use" = ""
        then "Internal server error during airdrop" else "account Address already in use")⟩) ∧
    (run w4).logs = [] ++ [.airdropErr "account Address already in use"] :=
  c4_top_level_catch w4 "account Address already in use" []
    [.readConfig, .queryBalance, .queryAccountInfo, .getBlockhash, .submit]
    [Instruction.transfer "Mint1:SenderPub" "Mint1:Recip1" "SenderPub" (some 25000000000000)]
    rfl rfl

theorem assemble_tx (ch : Chain) (senderPub sAta rAta addr mint : String)
    (amt : Option Int) (info : Option Unit) (logs1 : List LogEntry) :
    (assembleAndSend ch senderPub sAta rAta addr mint amt info logs1).tx =
      (match info with
        | none => [Instruction.createATA senderPub rAta addr mint]
        | some _ => []) ++
      [Instruction.transfer sAta rAta senderPub (scaleAmount amt)] := by
  simp only [assembleAndSend]
  repeat' split
  all_goals rfl

theorem run_tx_eq (w : World) (hm : w.req.method = "POST") :
    (run w).tx = (handlerTry w).tx := by
  rcases htw : handlerTry w with ⟨res, l, ev, tx⟩
  cases res with
  | ok r => rw [run_post_ok w r l ev tx hm htw]
  | error e => rw [run_post_err w e l ev tx hm htw]

/-- A chain oracle for a recipient with no token account yet. -/
def noAcctChain : Chain := { okChain with accountInfo := .ok none }

/-- A world in which the recipient token account must be created. -/
def w5 : World := ⟨okCfg, okReq, noAcctChain⟩

/-- C5: when the run reaches transaction assembly, a recipient without
a token account (the query returned null or threw) yields exactly the
account-creation instruction followed by the transfer, an existing
account yields the transfer alone, and a success response reports the
default amount 25000 whenever the amount variable is unset. -/
theorem c5_assembly_and_default_amount :
    (∀ (w : World) (addr pk sAta rAta : String),
      w.req.method = "POST" → w.req.walletAddress = some addr → addr ≠ "" →
      w.chain.validAddress addr = true →
      jsFalsy w.cfg.senderPrivateKey = false → jsFalsy w.cfg.tokenMintAddress = false →
      jsFalsy w.cfg.rpcUrl = false →
      parsedKeypair w.chain (w.cfg.senderPrivateKey.getD "") = .ok pk →
      w.chain.validAddress (w.cfg.tokenMintAddress.getD "") = true →
      w.chain.getATA (w.cfg.tokenMintAddress.getD "") pk = .ok sAta →
      w.chain.getATA (w.cfg.tokenMintAddress.getD "") addr = .ok rAta →
      w.chain.balanceThrow = none →
      jltQ (some (uiAmount w.chain)) (tokenAmountOf w.cfg.tokenAmountStr) = false →
      (w.chain.accountInfo = .ok none ∨ (∃ er, w.chain.accountInfo = .error er)) →
      (run w).tx = [Instruction.createATA pk rAta addr (w.cfg.tokenMintAddress.getD ""),
        Instruction.transfer sAta rAta pk (scaleAmount (tokenAmountOf w.cfg.tokenAmountStr))]) ∧
    (∀ (w : World) (addr pk sAta rAta : String) (u : Unit),
      w.req.method = "POST" → w.req.walletAddress = some addr → addr ≠ "" →
      w.chain.validAddress addr = true →
      jsFalsy w.cfg.senderPrivateKey = false → jsFalsy w.cfg.tokenMintAddress = false →
      jsFalsy w.cfg.rpcUrl = false →
      parsedKeypair w.chain (w.cfg.senderPrivateKey.getD "") = .ok pk →
      w.chain.validAddress (w.cfg.tokenMintAddress.getD "") = true →
      w.chain.getATA (w.cfg.tokenMintAddress.getD "") pk = .ok sAta →
      w.chain.getATA (w.cfg.tokenMintAddress.getD "") addr = .ok rAta →
      w.chain.balanceThrow = none →
      jltQ (some (uiAmount w.chain)) (tokenAmountOf w.cfg.tokenAmountStr) = false →
      w.chain.accountInfo = .ok (some u) →
      (run w).tx = [Instruction.transfer sAta rAta pk
        (scaleAmount (tokenAmountOf w.cfg.tokenAmountStr))]) ∧
    (∀ (w : World) (sig : String) (amt : Option Int) (m : String),
      w.cfg.tokenAmountStr = none →
      (run w).resp.body = .ok sig amt m → amt = some 25000) := by
  refine ⟨?_, ?_, ?_⟩
  · intro w addr pk sAta rAta hm ha hne hv hs hmintF hrpcF hk hmv h1 h2 hb hlt hinfo
    rw [run_tx_eq w hm]
    rcases hinfo with hinfo | ⟨er, hinfo⟩ <;>
      simp [handlerTry, handlerCore, ha, hne, hv, hs, hmintF, hrpcF, hk, hmv, h1, h2,
        hb, hlt, hinfo, assemble_tx]
  · intro w addr pk sAta rAta u hm ha hne hv hs hmintF hrpcF hk hmv h1 h2 hb hlt hinfo
    rw [run_tx_eq w hm]
    simp [handlerTry, handlerCore, ha, hne, hv, hs, hmintF, hrpcF, hk, hmv, h1, h2,
      hb, hlt, hinfo, assemble_tx]
  · intro w sig amt m hnone hbody
    by_cases hm : w.req.method = "POST"
    · rcases htw : handlerTry w with ⟨res, l, ev, tx⟩
      cases res with
      | ok r =>
        rw [run_post_ok w r l ev tx hm htw] at hbody
        have hb2 : r.body = .ok sig amt m := hbody
        have hres : (handlerTry w).result = .ok r := by rw [htw]
        simp only [handlerTry] at hres
        have hval := core_ok_amount _ _ _ _ _ _ _ r hres sig amt m hb2
        rw [hval, hnone]
        decide
      | error e =>
        rw [run_post_err w e l ev tx hm htw] at hbody
        have hb2 : (catchResp e).body = .ok sig amt m := hbody
        rcases catchResp_body_err e with ⟨m2, hm2⟩
        rw [hm2] at hb2
        simp at hb2
    · rw [run_not_post w hm] at hbody
      simp at hbody

/-- C5 witness: the two assembly shapes and the default amount on
concrete worlds. -/
theorem c5_witness :
    (run w5).tx = [Instruction.createATA "SenderPub" "Mint1:Recip1" "Recip1"
        (w5.cfg.tokenMintAddress.getD ""),
      Instruction.transfer "Mint1:SenderPub" "Mint1:Recip1" "SenderPub"
        (scaleAmount (tokenAmountOf w5.cfg.tokenAmountStr))] ∧
    (run okWorld).tx = [Instruction.transfer "Mint1:SenderPub" "Mint1:Recip1" "SenderPub"
      (scaleAmount (tokenAmountOf okWorld.cfg.tokenAmountStr))] ∧
    (some 25000 : Option Int) = some 25000 :=
  ⟨c5_assembly_and_default_amount.1 w5 "Recip1" "SenderPub" "Mint1:SenderPub" "Mint1:Recip1"
      rfl rfl (by decide) rfl (by decide) (by decide) (by decide) rfl rfl rfl rfl rfl
      (by decide) (Or.inl rfl),
    c5_assembly_and_default_amount.2.1 okWorld "Recip1" "SenderPub" "Mint1:SenderPub"
      "Mint1:Recip1" () rfl rfl (by decide) rfl (by decide) (by decide) (by decide) rfl rfl
      rfl rfl rfl (by decide) rfl,
    c5_assembly_and_default_amount.2.2 okWorld "Sig1" (some 25000)
      "Successfully airdropped 25000 DUCK tokens" rfl (by decide)⟩

/-- A chain oracle whose JSON byte-array parse fails. -/
def badKeyChain : Chain :=
  { okChain with jsonParseBytes := fun _ => .error "Unexpected token" }

/-- A world whose bracketed sender key fails to parse. -/
def w7 : World := ⟨okCfg, okReq, badKeyChain⟩

/-- C7: the sender credential is decoded as a JSON byte array exactly
when it begins with a bracket and as base58 otherwise; the decoded
bytes feed the keypair constructor; and for a request reaching the
credential step, any failure in this pipeline (parse error, decode
error, or a wrong-length rejection from the keypair constructor) is
answered 500 Invalid sender private key format. -/
theorem c7_key_decoding :
    (∀ (ch : Chain) (spk : String),
      (strStarts spk "[" = true → decodedKey ch spk = ch.jsonParseBytes spk) ∧
      (strStarts spk "[" = false → decodedKey ch spk = ch.bs58Decode spk)) ∧
    (∀ (ch : Chain) (spk : String) (bytes : List Nat),
      decodedKey ch spk = .ok bytes → parsedKeypair ch spk = ch.fromSecretKey bytes) ∧
    (∀ (w : World) (addr e : String),
      w.req.method = "POST" → w.req.walletAddress = some addr → addr ≠ "" →
      w.chain.validAddress addr = true →
      jsFalsy w.cfg.senderPrivateKey = false → jsFalsy w.cfg.tokenMintAddress = false →
      jsFalsy w.cfg.rpcUrl = false →
      parsedKeypair w.chain (w.cfg.senderPrivateKey.getD "") = .error e →
      run w = ⟨⟨500, .err "Invalid sender private key format"⟩,
        [.keyParseErr e], [.readConfig], []⟩) := by
  refine ⟨?_, ?_, ?_⟩
  · intro ch spk
    constructor
    · intro hc
      simp [decodedKey, hc]
    · intro hc
      simp [decodedKey, hc]
  · intro ch spk bytes hd
    simp [parsedKeypair, hd]
  · intro w addr e hm ha hne hv hs hmintF hrpcF hk
    have htry : handlerTry w = ⟨.ok ⟨500, .err "Invalid sender private key format"⟩,
        [.keyParseErr e], [.readConfig], []⟩ := by
      simp [handlerTry, handlerCore, ha, hne, hv, hs, hmintF, hrpcF, hk]
    exact run_post_ok w _ _ _ _ hm htry

/-- C7 witness: both decoding branches and a concrete failing parse. -/
theorem c7_witness :
    decodedKey okChain "[1,2]" = okChain.jsonParseBytes "[1,2]" ∧
    decodedKey okChain "base58key" = okChain.bs58Decode "base58key" ∧
    parsedKeypair okChain "[1,2]" = okChain.fromSecretKey [1] ∧
    run w7 = ⟨⟨500, .err "Invalid sender private key format"⟩,
      [.keyParseErr "Unexpected token"], [.readConfig], []⟩ :=
  ⟨(c7_key_decoding.1 okChain "[1,2]").1 (by decide),
    (c7_key_decoding.1 okChain "base58key").2 (by decide),
    c7_key_decoding.2.1 okChain "[1,2]" [1] rfl,
    c7_key_decoding.2.2 w7 "Recip1" "Unexpected token" rfl rfl (by decide) rfl
      (by decide) (by decide) (by decide) rfl⟩

/-- C8: noninterference of the sender credential: two worlds that agree
on the request, the chain oracle, the other configuration values, the
falsiness of the credential and the outcome of parsing it produce
identical runs (same response, same logs, same events, same
transaction).  The raw credential string therefore never influences,
and in particular never appears in, the response body or the log
output beyond what its parse outcome determines. -/
theorem c8_credential_noninterference (w1 w2 : World)
    (hreq : w1.req = w2.req) (hch : w1.chain = w2.chain)
    (hmint : w1.cfg.tokenMintAddress = w2.cfg.tokenMintAddress)
    (hrpc : w1.cfg.rpcUrl = w2.cfg.rpcUrl)
    (hamt : w1.cfg.tokenAmountStr = w2.cfg.tokenAmountStr)
    (hfal : jsFalsy w1.cfg.senderPrivateKey = jsFalsy w2.cfg.senderPrivateKey)
    (hkey : parsedKeypair w1.chain (w1.cfg.senderPrivateKey.getD "") =
      parsedKeypair w2.chain (w2.cfg.senderPrivateKey.getD "")) :
    run w1 = run w2 := by
  unfold run handlerTry
  rw [hkey, hfal, hreq, hmint, hrpc, hamt, hch]

/-- A world with the sender key set to one byte-array string. -/
def w8a : World := ⟨⟨some "[1]", some "Mint1", some "Rpc1", none⟩, okReq, okChain⟩

/-- The same world with a different credential string that parses to
the same keypair. -/
def w8b : World := ⟨⟨some "[2]", some "Mint1", some "Rpc1", none⟩, okReq, okChain⟩

/-- C8 witness: two concrete worlds differing only in the credential
string produce identical runs. -/
theorem c8_witness : run w8a = run w8b :=
  c8_credential_noninterference w8a w8b rfl rfl rfl rfl rfl (by decide) rfl

/-- C9: a concrete run exhibiting the guard/debit unit mismatch: with a
6-decimal token and a raw sender balance of 25000 * 10^6 base units the
balance guard passes (the decimal-adjusted balance equals the
configured 25000) and the transaction is submitted, yet the transfer
instruction debits 25000 * 10^9 base units, more than the sender
holds. -/
theorem c9_unit_mismatch :
    okWorld.chain.tokenDecimals = 6 ∧
    okWorld.chain.senderRawBalance = 25000000000 ∧
    jltQ (some (uiAmount okWorld.chain)) (tokenAmountOf okWorld.cfg.tokenAmountStr) = false ∧
    Event.submit ∈ (run okWorld).events ∧
    (run okWorld).tx =
      [Instruction.transfer "Mint1:SenderPub" "Mint1:Recip1" "SenderPub"
        (some 25000000000000)] ∧
    okWorld.chain.senderRawBalance < 25000000000000 := by
  decide

theorem missingEnv_run_to_try (w : World)
    (h : LogEntry.missingEnv ∈ (run w).logs) :
    LogEntry.missingEnv ∈ (handlerTry w).logs := by
  by_cases hm : w.req.method = "POST"
  · rcases htw : handlerTry w with ⟨res, l, ev, tx⟩
    cases res with
    | ok r =>
      rw [run_post_ok w r l ev tx hm htw] at h
      simpa using h
    | error e =>
      rw [run_post_err w e l ev tx hm htw] at h
      simp at h
      simpa using h
  · rw [run_not_post w hm] at h
    simp at h

/-- A world with the amount variable set to a non-numeric string. -/
def w10 : World := ⟨⟨some "[1,2]", some "Mint1", some "Rpc1", some "abc"⟩, okReq, okChain⟩

/-- C10: with the transfer-amount variable set to a string that does
not parse as an integer, the handler does not take the
configuration-error branch (its log line never occurs when the three
required values are present), the insufficient-balance rejection can
never fire for any queried balance, and a success response reports
amount NaN. -/
theorem c10_nan_amount (w : World) (s : String)
    (hset : w.cfg.tokenAmountStr = some s) (hne : s ≠ "")
    (hnan : parseIntJs s = none) :
    (jsFalsy w.cfg.senderPrivateKey = false → jsFalsy w.cfg.tokenMintAddress = false →
      jsFalsy w.cfg.rpcUrl = false → LogEntry.missingEnv ∉ (run w).logs) ∧
    ¬ (run w).resp = ⟨400, .err "insufficient_token_balance"⟩ ∧
    (∀ (sig : String) (amt : Option Int) (m : String),
      (run w).resp.body = .ok sig amt m → amt = none) := by
  have hamt : tokenAmountOf w.cfg.tokenAmountStr = none := by
    simp [tokenAmountOf, envOrDefault, hset, hne, hnan]
  refine ⟨?_, ?_, ?_⟩
  · intro hs hmintF hrpcF hmem
    have h2 := missingEnv_run_to_try w hmem
    simp only [handlerTry] at h2
    have h3 := core_missing_env _ _ _ _ _ _ _ h2
    rw [hs, hmintF, hrpcF] at h3
    simp at h3
  · intro hcontra
    by_cases hm : w.req.method = "POST"
    · rcases htw : handlerTry w with ⟨res, l, ev, tx⟩
      cases res with
      | ok r =>
        rw [run_post_ok w r l ev tx hm htw] at hcontra
        have hr2 : r = ⟨400, .err "insufficient_token_balance"⟩ := hcontra
        have hres : (handlerTry w).result = .ok ⟨400, .err "insufficient_token_balance"⟩ := by
          rw [htw, hr2]
        simp only [handlerTry] at hres
        have h4 := core_insufficient _ _ _ _ _ _ _ hres
        rw [hamt] at h4
        simp [jltQ] at h4
      | error e =>
        rw [run_post_err w e l ev tx hm htw] at hcontra
        exact catchResp_ne_insufficient e hcontra
    · rw [run_not_post w hm] at hcontra
      simp at hcontra
  · intro sig amt m hbody
    by_cases hm : w.req.method = "POST"
    · rcases htw : handlerTry w with ⟨res, l, ev, tx⟩
      cases res with
      | ok r =>
        rw [run_post_ok w r l ev tx hm htw] at hbody
        have hb2 : r.body = .ok sig amt m := hbody
        have hres : (handlerTry w).result = .ok r := by rw [htw]
        simp only [handlerTry] at hres
        have hval := core_ok_amount _ _ _ _ _ _ _ r hres sig amt m hb2
        rw [hval, hamt]
      | error e =>
        rw [run_post_err w e l ev tx hm htw] at hbody
        have hb2 : (catchResp e).body = .ok sig amt m := hbody
        rcases catchResp_body_err e with ⟨m2, hm2⟩
        rw [hm2] at hb2
        simp at hb2
    · rw [run_not_post w hm] at hbody
      simp at hbody

/-- C10 witness: a concrete world with amount variable "abc" avoids the
configuration error and the balance rejection, and its success
response reports amount NaN. -/
theorem c10_witness :
    LogEntry.missingEnv ∉ (run w10).logs ∧
    ¬ (run w10).resp = ⟨400, .err "insufficient_token_balance"⟩ ∧
    (none : Option Int) = none :=
  ⟨(c10_nan_amount w10 "abc" rfl (by decide) (by decide)).1 (by decide) (by decide) (by decide),
    (c10_nan_amount w10 "abc" rfl (by decide) (by decide)).2.1,
    (c10_nan_amount w10 "abc" rfl (by decide) (by decide)).2.2 "Sig1" none
      "Successfully airdropped NaN DUCK tokens" (by decide)⟩

end Airdrop
